import Mathlib

/-!
Verification of the pip-services3-aws-node specification against the
repository's source code, as a shallow embedding in Lean 4.

The embedding covers:
* the ARN parse/compose pair (the `connect` module is not shipped in this
  source snapshot — only its callers are — so it is modelled from the
  spec);
* `CloudWatchCounters` (`open`, `getCounterData`, `save`) from
  `src/obj/src/count/CloudWatchCounters.js`;
* `CloudWatchLogger` (`formatMessageText`, `save`, `close`) from
  `src/obj/src/log/CloudWatchLogger.js`;
* `LambdaFunction.execute` from the container module (bundled at the end
  of `src/obj/src/log/CloudWatchLogger.js`);
* `LambdaClient.invoke` from `src/src/clients/LambdaClient.ts`.

JavaScript-specific semantics that matter to the claims are embedded
explicitly: `var` hoisting (a read before the assignment yields
`undefined`, modelled as `none`), truthiness of the empty string and of
`null`, the fact that a callback passed to a remote AWS call fires
strictly after the current synchronous pass, and `async.series` running
its tasks in order with each task gated on the previous task's callback.
-/

namespace PipAws

/-! ## Character-list splitting and joining

List-of-characters machinery used by the lexical ARN parser.
`splitOnChar` mirrors splitting a string on a delimiter character (every
occurrence), `joinWith` the inverse interleaving, `splitOnFirst` splitting
at the first occurrence only (the slash-delimited resource suffix of an
ARN). -/

/-- Split a character list on every occurrence of `c`.  Always returns a
non-empty list of fragments, none of which contains `c`. -/
def splitOnChar (c : Char) : List Char → List (List Char)
  | [] => [[]]
  | x :: xs =>
    match splitOnChar c xs with
    | [] => [[]]
    | y :: ys => if x = c then [] :: y :: ys else (x :: y) :: ys

/-- Interleave the delimiter `c` between fragments. -/
def joinWith (c : Char) : List (List Char) → List Char
  | [] => []
  | [x] => x
  | x :: y :: ys => x ++ c :: joinWith c (y :: ys)

/-- Split at the first occurrence of `c`, returning the part before and
the part after; `none` when `c` does not occur. -/
def splitOnFirst (c : Char) : List Char → Option (List Char × List Char)
  | [] => none
  | x :: xs =>
    if x = c then some ([], xs)
    else
      match splitOnFirst c xs with
      | none => none
      | some (a, b) => some (x :: a, b)

/-! ## ARN parse / compose

Modelled from the spec: the `AwsConnectionParams` / `Arn` code of this
repository is not part of this source snapshot (only its callers under
`src/` reference the `connect` module), so the decomposed ARN view is
modelled from the spec's words: "a decomposed structural view of an
Amazon Resource Name string with fields {partition, service, region,
account, resourceType, resource}. Parsing is purely lexical
(colon-delimited, slash-delimited resource suffix)". -/

/-- Modelled from the spec: the decomposed structural view of an ARN
string (the `Arn` data model of the missing `connect` module). -/
structure Arn where
  partition : List Char
  service : List Char
  region : List Char
  account : List Char
  resourceType : List Char
  resource : List Char
  deriving DecidableEq, Repr

/-- Modelled from the spec: composing an ARN string
`arn:partition:service:region:account:resourceType/resource` from
parts. -/
def composeArn (a : Arn) : List Char :=
  joinWith ':'
    ["arn".toList, a.partition, a.service, a.region, a.account,
      a.resourceType ++ '/' :: a.resource]

/-- Modelled from the spec: purely lexical ARN parsing — split on colons
into exactly six fields headed by the literal `arn`, then split the last
field at the first slash into resource type and resource. -/
def parseArn (s : List Char) : Option Arn :=
  match splitOnChar ':' s with
  | [w, p, sv, r, ac, res] =>
    if w = "arn".toList then
      match splitOnFirst '/' res with
      | some (rt, rs) => some ⟨p, sv, r, ac, rt, rs⟩
      | none => none
    else none
  | _ => none

/-- A well-formed decomposition: no field contains the colon delimiter and
the resource type contains no slash (so the slash written by `composeArn`
is the first one). -/
def Arn.WellFormed (a : Arn) : Prop :=
  ':' ∉ a.partition ∧ ':' ∉ a.service ∧ ':' ∉ a.region ∧ ':' ∉ a.account ∧
    ':' ∉ a.resourceType ∧ ':' ∉ a.resource ∧ '/' ∉ a.resourceType

instance (a : Arn) : Decidable a.WellFormed := by
  unfold Arn.WellFormed; infer_instance

/-- A sample well-formed ARN decomposition used by concrete witnesses. -/
def arnEx : Arn :=
  ⟨"aws".toList, "logs".toList, "us-east-1".toList, "123456789012".toList,
    "log-group".toList, "mygroup".toList⟩

/-! ## CloudWatchCounters (`src/obj/src/count/CloudWatchCounters.js`)

The counter data model comes from the `pip-services3-components-node`
`CachedCounters` base class: a counter has a name, a semantic kind, a
timestamp (a JS `Date`, embedded as epoch milliseconds) and numeric
aggregates.  JS numbers are embedded as rationals. -/

/-- Counter kinds of the components framework (`CounterType`). -/
inductive CounterType where
  | Interval
  | LastValue
  | Statistics
  | Timestamp
  | Increment
  deriving DecidableEq, Repr

/-- A cached counter snapshot handed to `save`. -/
structure Counter where
  name : String
  /-- The source's `counter.time` is a JS `Date`; embedded as epoch
  milliseconds. -/
  time : Nat
  type : CounterType
  last : Rat
  count : Rat
  min : Rat
  max : Rat
  average : Rat
  deriving DecidableEq, Repr

/-- String constant of `src/obj/src/count/CloudWatchUnit.js`. -/
def CloudWatchUnit.None : String := "None"

/-- String constant of `src/obj/src/count/CloudWatchUnit.js`. -/
def CloudWatchUnit.Count : String := "Count"

/-- String constant of `src/obj/src/count/CloudWatchUnit.js`. -/
def CloudWatchUnit.Milliseconds : String := "Milliseconds"

/-- The `StatisticValues` object shape of a CloudWatch metric datum. -/
structure StatValues where
  SampleCount : Rat
  Maximum : Rat
  Minimum : Rat
  Sum : Rat
  deriving DecidableEq, Repr

/-- One CloudWatch metric datum as built by `getCounterData`: the absent
`Value` / `StatisticValues` properties are `none`. -/
structure MetricValue where
  MetricName : String
  Timestamp : Nat
  Dimensions : List (String × String)
  Unit : String
  Value : Option Rat
  StatisticValues : Option StatValues
  deriving DecidableEq, Repr

namespace CloudWatchCounters

/-- Embeds `CloudWatchCounters.getCounterData` (lines 160–199): start from
the base datum with `Unit = None` and no value, then fill per counter
kind.  The `now` argument is taken by the source but never read. -/
def getCounterData (counter : Counter) (now : Nat)
    (dimensions : List (String × String)) : MetricValue :=
  let value : MetricValue :=
    { MetricName := counter.name
      Timestamp := counter.time
      Dimensions := dimensions
      Unit := CloudWatchUnit.None
      Value := none
      StatisticValues := none }
  match counter.type with
  | .Increment =>
      { value with Value := some counter.count, Unit := CloudWatchUnit.Count }
  | .Interval =>
      { value with
          Unit := CloudWatchUnit.Milliseconds
          StatisticValues := some
            { SampleCount := counter.count
              Maximum := counter.max
              Minimum := counter.min
              Sum := counter.count * counter.average } }
  | .Statistics =>
      { value with
          StatisticValues := some
            { SampleCount := counter.count
              Maximum := counter.max
              Minimum := counter.min
              Sum := counter.count * counter.average } }
  | .LastValue => { value with Value := some counter.last }
  | .Timestamp => { value with Value := some (counter.time : Rat) }

/-- The per-kind metric-datum shape as the (amended) spec sentence
describes it, one complete record per counter kind, for comparison with
`getCounterData`. -/
def expectedCounterData (c : Counter) (dims : List (String × String)) :
    MetricValue :=
  match c.type with
  | .Increment =>
      { MetricName := c.name, Timestamp := c.time, Dimensions := dims
        Unit := CloudWatchUnit.Count, Value := some c.count
        StatisticValues := none }
  | .Interval =>
      { MetricName := c.name, Timestamp := c.time, Dimensions := dims
        Unit := CloudWatchUnit.Milliseconds, Value := none
        StatisticValues := some
          ⟨c.count, c.max, c.min, c.count * c.average⟩ }
  | .Statistics =>
      { MetricName := c.name, Timestamp := c.time, Dimensions := dims
        Unit := CloudWatchUnit.None, Value := none
        StatisticValues := some
          ⟨c.count, c.max, c.min, c.count * c.average⟩ }
  | .LastValue =>
      { MetricName := c.name, Timestamp := c.time, Dimensions := dims
        Unit := CloudWatchUnit.None, Value := some c.last
        StatisticValues := none }
  | .Timestamp =>
      { MetricName := c.name, Timestamp := c.time, Dimensions := dims
        Unit := CloudWatchUnit.None, Value := some (c.time : Rat)
        StatisticValues := none }

/-- The component state the embedded counters methods read and write:
`opened` (`this._opened`), whether `this._client` is non-null, and the
configured `source` / `instance` strings. -/
structure State where
  opened : Bool
  client : Bool
  source : String
  instanceId : String
  deriving DecidableEq, Repr

/-- Embeds `CloudWatchCounters.isOpen` (line 110). -/
def isOpen (st : State) : Bool := st.opened

/-- Outcome of one `open` call: the state afterwards, the value passed to
the completion callback (`none` = `null`), and whether connection
resolution was attempted. -/
structure OpenResult where
  state : State
  callbackErr : Option String
  resolved : Bool
  deriving DecidableEq, Repr

/-- Embeds `CloudWatchCounters.open` (lines 119–147).  If already opened,
the callback fires with `null` and nothing else happens.  Otherwise
`this._opened` is set to `true` *before* the `async.series` that resolves
the connection, so a resolution error (`resolveErr = some e`) aborts the
series — leaving `_client` untouched — while the opened flag stays
set. -/
def openStep (st : State) (resolveErr : Option String) : OpenResult :=
  if st.opened then ⟨st, none, false⟩
  else
    let st1 := { st with opened := true }
    match resolveErr with
    | some e => ⟨st1, some e, true⟩
    | none => ⟨{ st1 with client := true }, none, true⟩

/-- The `params` object of a `putMetricData` call. -/
structure PutMetricParams where
  MetricData : List MetricValue
  Namespace : String
  deriving DecidableEq, Repr

/-- The loop body of `CloudWatchCounters.save` (lines 215–234), run over
the whole batch in one synchronous pass.  Mirrored JS semantics:

* `var params` is declared *after* the loop, so by hoisting every
  `putMetricData(params, …)` issued inside the loop reads `undefined`
  (embedded as `none`);
* the `data = []` reset is the second task of an `async.series` whose
  first task completes only when the remote `putMetricData` callback
  fires, i.e. strictly after this synchronous pass — so `data` keeps
  growing throughout the loop and every counter from the 20th on
  re-triggers a put.

Returns the accumulated `data` array and the put calls issued in the
loop. -/
def saveLoop (now : Nat) (dims : List (String × String)) :
    List Counter → List MetricValue →
      List MetricValue × List (Option PutMetricParams)
  | [], data => (data, [])
  | c :: rest, data =>
    let data' := data ++ [getCounterData c now dims]
    let (dataF, puts) := saveLoop now dims rest data'
    if data'.length ≥ 20 then (dataF, none :: puts) else (dataF, puts)

/-- Embeds `CloudWatchCounters.save` (lines 205–247): returns the sequence
of `putMetricData` calls issued during the synchronous pass, in order (the
argument of each call; `none` = the hoisted, still-undefined `params`).
After the loop `params` is assigned `{MetricData: data, Namespace:
this._source}` and, if `data` is non-empty, submitted once more. -/
def save (st : State) (counters : List Counter) (now : Nat) :
    List (Option PutMetricParams) :=
  if st.client = false then []
  else
    let dims := [("InstanceID", st.instanceId)]
    let (data, loopPuts) := saveLoop now dims counters []
    loopPuts ++
      (if data.length > 0 then [some ⟨data, st.source⟩] else [])

end CloudWatchCounters

/-- An open counters component used by concrete witnesses. -/
def cwcOpenState : CloudWatchCounters.State :=
  { opened := true, client := true, source := "mysource", instanceId := "i-1" }

/-- A closed counters component used by the C9 witness. -/
def cwcClosedState : CloudWatchCounters.State :=
  { opened := false, client := false, source := "mysource", instanceId := "i-1" }

/-- A sample increment counter. -/
def incCounterEx : Counter :=
  { name := "calls", time := 1000, type := .Increment
    last := 0, count := 1, min := 1, max := 1, average := 1 }

/-- A sample interval counter. -/
def intervalCounterEx : Counter :=
  { name := "exec_time", time := 1000, type := .Interval
    last := 4, count := 3, min := 1, max := 5, average := 2 }

/-! ## CloudWatchLogger (`src/obj/src/log/CloudWatchLogger.js`) -/

/-- The `error` sub-object of a cached log message. -/
structure LogErrorDesc where
  message : String
  /-- Absent or empty stack traces are falsy in the source's check. -/
  stack_trace : Option String
  deriving DecidableEq, Repr

/-- A cached log message handed to `save` (the `LogMessage` shape of the
components framework; `time` is a JS `Date`, embedded as epoch
milliseconds). -/
structure LogMessage where
  time : Nat
  source : Option String
  correlation_id : Option String
  level : String
  message : String
  error : Option LogErrorDesc
  deriving DecidableEq, Repr

namespace CloudWatchLogger

/-- Embeds `CloudWatchLogger.formatMessageText` (lines 223–241), with JS
truthiness: an absent or empty `source` / `correlation_id` prints as
`---`; when the text is empty the error message is prefixed with
`Error: `; an absent or empty stack trace is skipped. -/
def formatMessageText (m : LogMessage) : String :=
  let sourceTxt := match m.source with
    | some s => if s = "" then "---" else s
    | none => "---"
  let cidTxt := match m.correlation_id with
    | some c => if c = "" then "---" else c
    | none => "---"
  let result :=
    "[" ++ sourceTxt ++ ":" ++ cidTxt ++ ":" ++ m.level ++ "] " ++ m.message
  match m.error with
  | none => result
  | some e =>
    let result :=
      result ++ (if m.message = "" then "Error: " else ": ") ++ e.message
    match e.stack_trace with
    | some stt =>
        if stt = "" then result else result ++ " StackTrace: " ++ stt
    | none => result

/-- The logger component state the embedded methods read and write:
`timer` (whether `this._timer` is non-null, which is also `isOpen`),
whether `this._client` is non-null, the held sequence token
`this._lastToken`, the configured group/stream names, and the buffered
message cache of the `CachedLogger` base. -/
structure State where
  timer : Bool
  client : Bool
  lastToken : Option String
  group : String
  stream : String
  cache : List LogMessage
  deriving DecidableEq, Repr

/-- Embeds `CloudWatchLogger.isOpen` (line 125): the timer handle is the
opened flag. -/
def isOpen (st : State) : Bool := st.timer

/-- One element of the `logEvents` array of a `putLogEvents` call. -/
structure LogEvent where
  timestamp : Nat
  message : String
  deriving DecidableEq, Repr

/-- The `params` object of a `putLogEvents` call. -/
structure PutLogParams where
  logEvents : List LogEvent
  logGroupName : String
  logStreamName : String
  sequenceToken : Option String
  deriving DecidableEq, Repr

/-- Outcome of one `save` call: the values handed to the completion
callback (in order; `none` = `null`), whether `describeLogStreams` was
called, the `putLogEvents` call issued (if any), errors reported to the
auxiliary logger, and the state afterwards. -/
structure SaveOutcome where
  callbackCalls : List (Option String)
  describeCalled : Bool
  putCall : Option PutLogParams
  loggedErrors : List String
  state : State
  deriving DecidableEq, Repr

/-- Embeds `CloudWatchLogger.save` (lines 248–301).

Inputs standing for the remote service: `describeTokens` is the
`uploadSequenceToken` of each stream in the `describeLogStreams` response,
`putResult` is the `putLogEvents` response (`Except.error` = remote error,
`Except.ok` = `nextSequenceToken`).

The `params` object — including `sequenceToken: this._lastToken` — is
built *before* the `async.series`, so the token submitted to
`putLogEvents` is the one held at entry, not the one re-fetched by the
series' first task.  The series has no final callback, so on this path
`callback` is never invoked. -/
def save (st : State) (messages : Option (List LogMessage))
    (describeTokens : List (Option String))
    (putResult : Except String String) : SaveOutcome :=
  if isOpen st = false ∨ messages = some [] ∨ messages = none then
    ⟨[none], false, none, [], st⟩
  else if st.client = false then
    ⟨[some "NOT_OPENED"], false, none, [], st⟩
  else
    let msgs := messages.getD []
    let events := msgs.map fun m =>
      LogEvent.mk m.time (formatMessageText m)
    let params : PutLogParams :=
      ⟨events, st.group, st.stream, st.lastToken⟩
    let st1 := match describeTokens with
      | [] => st
      | t :: _ => { st with lastToken := t }
    match putResult with
    | .error e =>
        ⟨[], true, some params, ["putLogEvents error: " ++ e], st1⟩
    | .ok tok =>
        ⟨[], true, some params, [], { st1 with lastToken := some tok }⟩

/-- Outcome of one `close` call: the values handed to the close callback
and the state afterwards. -/
structure CloseOutcome where
  callbackCalls : List (Option String)
  state : State
  deriving DecidableEq, Repr

/-- Embeds `CloudWatchLogger.close` (lines 212–222): `save(this._cache,
continuation)`; the continuation — which clears the timer, the cache and
the client and then signals the close callback with `null` — runs once per
invocation of the save callback, so it never runs when `save` never calls
back. -/
def close (st : State) (describeTokens : List (Option String))
    (putResult : Except String String) : CloseOutcome :=
  let o := save st (some st.cache) describeTokens putResult
  match o.callbackCalls with
  | [] => ⟨[], o.state⟩
  | _ :: _ =>
      ⟨[none], { o.state with timer := false, cache := [], client := false }⟩

end CloudWatchLogger

/-- A sample log message. -/
def logMsgEx : LogMessage :=
  { time := 2000, source := some "svc", correlation_id := some "123"
    level := "error", message := "boom", error := none }

/-- An open logger holding the stale sequence token `"old"`, with one
buffered message. -/
def loggerOpenState : CloudWatchLogger.State :=
  { timer := true, client := true, lastToken := some "old"
    group := "mygroup", stream := "mystream", cache := [logMsgEx] }

/-! ## LambdaFunction (container module, bundled in
`src/obj/src/log/CloudWatchLogger.js`, lines 511–699) -/

/-- An application error surfaced through `context.done`: the exception
class, the correlation id it was built with, its code, message, and the
details attached with `withDetails`. -/
structure AppError where
  etype : String
  correlationId : Option String
  code : String
  message : String
  details : List (String × String)
  deriving DecidableEq, Repr

/-- An incoming invocation event: the optional `cmd` and `correlation_id`
fields (absent = `none`; the source's `event.cmd == null` check matches
both `null` and `undefined`), plus the remaining payload fields. -/
structure Event where
  cmd : Option String
  correlation_id : Option String
  rest : List (String × String)
  deriving DecidableEq, Repr

/-- Result of `execute`: what was handed to `context.done` (error and
result), and which registered command's action ran (`none` when no action
was invoked). -/
structure ExecResult (ρ : Type) where
  done : Option AppError × Option ρ
  invoked : Option String

namespace LambdaFunction

/-- Embeds `LambdaFunction.execute` (lines 637–653).  `actions` is the
registered-action map `this._actions` (`none` = no handler registered for
that command).  A missing `cmd` reports `BadRequestException NO_COMMAND`;
an unregistered `cmd` reports `BadRequestException NO_ACTION` with the
command attached as the `command` detail; otherwise the registered action
is called with the event and `context.done`, so its outcome is forwarded
unchanged. -/
def execute {ρ : Type}
    (actions : String → Option (Event → Option AppError × Option ρ))
    (event : Event) : ExecResult ρ :=
  match event.cmd with
  | none =>
      ⟨(some ⟨"BadRequestException", event.correlation_id, "NO_COMMAND",
          "Cmd parameter is missing", []⟩, none), none⟩
  | some cmd =>
      match actions cmd with
      | none =>
          ⟨(some ⟨"BadRequestException", event.correlation_id, "NO_ACTION",
              "Action " ++ cmd ++ " was not found",
              [("command", cmd)]⟩, none), none⟩
      | some action => ⟨action event, some cmd⟩

end LambdaFunction

/-- A sample registered action: replies `"pong"`. -/
def pingAction : Event → Option AppError × Option String :=
  fun _ => (none, some "pong")

/-- A sample action map with only `"ping"` registered. -/
def actionsEx : String → Option (Event → Option AppError × Option String) :=
  fun s => if s = "ping" then some pingAction else none

/-- An event with no `cmd` field. -/
def eventNoCmd : Event := ⟨none, some "42", []⟩

/-- An event whose command has no registered handler. -/
def eventUnknown : Event := ⟨some "zzz", some "42", []⟩

/-- An event matching the registered `"ping"` action. -/
def eventPing : Event := ⟨some "ping", some "42", []⟩

/-! ## LambdaClient (`src/src/clients/LambdaClient.ts`) -/

/-- A JS value as carried in invocation payloads. -/
inductive JsValue where
  | vnull
  | vbool (b : Bool)
  | vnum (q : Rat)
  | vstr (s : String)
  | varr (xs : List JsValue)
  | vobj (fs : List (String × JsValue))

/-- A JS object as a field list in insertion order. -/
def JsObj : Type := List (String × JsValue)

/-- Property assignment `o[k] = v`: overwrite in place when the key
exists, append otherwise (JS insertion-order semantics). -/
def setField (o : JsObj) (k : String) (v : JsValue) : JsObj :=
  match o with
  | [] => [(k, v)]
  | (k', v') :: rest =>
      if k' = k then (k', v) :: rest else (k', v') :: setField rest k v

/-- A JS error value: either the raw error object from a collaborator
(`raw`), or a toolkit application exception with its class, code and
cause chain (`app`). -/
inductive JsError where
  | raw (msg : String)
  | app (etype : String) (code : String) (cause : Option JsError)

/-- The payload of a successful remote invocation: either not a string
(returned as-is), or a string together with its `JSON.parse` outcome
(`Except.error` = the parse exception's message).  The parse outcome is
part of the input because `JSON.parse` is an external library. -/
inductive RemotePayload where
  | nonString (v : JsValue)
  | strPayload (s : String) (decoded : Except String JsValue)

/-- The remote Lambda service's response to `invoke`. -/
inductive RemoteResult where
  | failure (e : String)
  | success (p : RemotePayload)

/-- The `params` object of `this._lambda.invoke`. -/
structure InvokeParams where
  FunctionName : String
  InvocationType : String
  LogType : String
  Payload : JsObj

/-- Outcome of one `LambdaClient.invoke` call: the remote invocation
issued (if any), the values handed to the caller's callback in order,
the errors handed to the logger when no callback is supplied, and the
caller-visible `args` object after the call (the source rebinds the local
`args` to `_.clone(args)` before mutating, so the caller's object is
untouched). -/
structure InvokeOutcome where
  remoteCall : Option InvokeParams
  callbackCalls : List (Option JsError × Option JsValue)
  loggedErrors : List JsError
  callerArgs : JsObj

namespace LambdaClient

/-- Embeds `LambdaClient.invoke` (lines 221–274).

* The guard is `cmd == null`, so only `null`/`undefined` (here `none`)
  short-circuits with the `UnknownException NO_COMMAND` error; an empty
  string passes the guard.
* `args` is rebound to `_.clone(args)`, then `cmd` and `correlation_id`
  are set on the clone; `correlationId || IdGenerator.nextShort()` falls
  back to the generated id `genId` when the supplied id is `null` or
  empty (falsy).
* On response with no callback: a transport error is logged raw, nothing
  else happens (no parse is attempted).
* With a callback: a transport error is wrapped as `InvocationException
  CALL_FAILED` with the raw error as cause; a non-string payload (or a
  string that parses) is handed to the callback as the result; a string
  payload that fails `JSON.parse` first gets the callback invoked with
  `InvocationException DESERIALIZATION_FAILED`, and then — the `catch`
  block does not return — the callback is invoked a second time with the
  still-undecoded raw string as the result. -/
def invoke (arn : String) (invocationType : String) (cmd : Option String)
    (correlationId : Option String) (genId : String) (args : JsObj)
    (hasCallback : Bool) (remote : RemoteResult) : InvokeOutcome :=
  match cmd with
  | none =>
      let err : JsError := .app "UnknownException" "NO_COMMAND" none
      if hasCallback then ⟨none, [(some err, none)], [], args⟩
      else ⟨none, [], [err], args⟩
  | some c =>
      let cloned := args
      let args1 := setField cloned "cmd" (.vstr c)
      let cid := match correlationId with
        | some s => if s = "" then genId else s
        | none => genId
      let args2 := setField args1 "correlation_id" (.vstr cid)
      let params : InvokeParams := ⟨arn, invocationType, "None", args2⟩
      if hasCallback = false then
        match remote with
        | .failure e => ⟨some params, [], [.raw e], args⟩
        | .success _ => ⟨some params, [], [], args⟩
      else
        match remote with
        | .failure e =>
            ⟨some params,
              [(some (.app "InvocationException" "CALL_FAILED"
                  (some (.raw e))), none)], [], args⟩
        | .success (.nonString v) =>
            ⟨some params, [(none, some v)], [], args⟩
        | .success (.strPayload _ (.ok v)) =>
            ⟨some params, [(none, some v)], [], args⟩
        | .success (.strPayload s (.error pe)) =>
            ⟨some params,
              [(some (.app "InvocationException" "DESERIALIZATION_FAILED"
                  (some (.raw pe))), none),
                (none, some (.vstr s))], [], args⟩

end LambdaClient

/-- The payload the spec describes for a non-null command: a clone of the
supplied `args` extended with the command under key `cmd` and, under
`correlation_id`, the supplied correlation id when it is non-empty or the
freshly generated one otherwise. -/
def specInvokePayload (c : Option String) (genId : String) (args : JsObj)
    (cmd : String) : JsObj :=
  setField (setField args "cmd" (.vstr cmd)) "correlation_id"
    (.vstr (match c with
      | some s => if s = "" then genId else s
      | none => genId))

/-! ## Theorems -/

theorem splitOnChar_ne_nil (c : Char) (l : List Char) :
    splitOnChar c l ≠ [] := by
  cases l with
  | nil => simp [splitOnChar]
  | cons x xs =>
    simp only [splitOnChar]
    cases h : splitOnChar c xs with
    | nil => simp
    | cons y ys =>
      by_cases hx : x = c <;> simp [hx]

theorem splitOnChar_no_delim (c : Char) (p : List Char) (hp : c ∉ p) :
    splitOnChar c p = [p] := by
  induction p with
  | nil => rfl
  | cons x xs ih =>
    simp only [List.mem_cons, not_or] at hp
    simp only [splitOnChar, ih hp.2]
    have hx : ¬ x = c := fun h => hp.1 (h ▸ rfl)
    simp [hx]

theorem splitOnChar_append (c : Char) (p rest : List Char) (hp : c ∉ p) :
    splitOnChar c (p ++ c :: rest) = p :: splitOnChar c rest := by
  induction p with
  | nil =>
    simp only [List.nil_append, splitOnChar]
    cases h : splitOnChar c rest with
    | nil => exact absurd h (splitOnChar_ne_nil c rest)
    | cons y ys => simp
  | cons x xs ih =>
    simp only [List.mem_cons, not_or] at hp
    have hx : ¬ x = c := fun h => hp.1 (h ▸ rfl)
    simp only [List.cons_append, splitOnChar, List.append_eq]
    rw [ih hp.2]
    simp [hx]

theorem splitOnChar_joinWith (c : Char) (parts : List (List Char))
    (hne : parts ≠ []) (hp : ∀ p ∈ parts, c ∉ p) :
    splitOnChar c (joinWith c parts) = parts := by
  induction parts with
  | nil => exact absurd rfl hne
  | cons p ps ih =>
    cases ps with
    | nil =>
      simp only [joinWith]
      exact splitOnChar_no_delim c p (hp p (by simp))
    | cons q qs =>
      simp only [joinWith]
      rw [splitOnChar_append c p _ (hp p (by simp))]
      congr 1
      exact ih (by simp) (fun r hr => hp r (List.mem_cons_of_mem p hr))

theorem splitOnFirst_append (c : Char) (a b : List Char) (ha : c ∉ a) :
    splitOnFirst c (a ++ c :: b) = some (a, b) := by
  induction a with
  | nil => simp [splitOnFirst]
  | cons x xs ih =>
    simp only [List.mem_cons, not_or] at ha
    have hx : ¬ x = c := fun h => ha.1 (h ▸ rfl)
    simp only [List.cons_append, splitOnFirst, List.append_eq]
    rw [ih ha.2]
    simp [hx]

theorem parseArn_composeArn (a : Arn) (h : a.WellFormed) :
    parseArn (composeArn a) = some a := by
  obtain ⟨h1, h2, h3, h4, h5, h6, h7⟩ := h
  have hres : ':' ∉ a.resourceType ++ '/' :: a.resource := by
    intro hm
    rcases List.mem_append.1 hm with hm | hm
    · exact h5 hm
    · rcases List.mem_cons.1 hm with hm | hm
      · exact absurd hm (by decide)
      · exact h6 hm
  have hsplit : splitOnChar ':' (composeArn a) =
      ["arn".toList, a.partition, a.service, a.region, a.account,
        a.resourceType ++ '/' :: a.resource] := by
    apply splitOnChar_joinWith
    · simp
    · intro p hp
      simp only [List.mem_cons, List.not_mem_nil, or_false] at hp
      rcases hp with h | h | h | h | h | h <;> subst h
      · decide
      all_goals assumption
  simp [parseArn, hsplit, splitOnFirst_append '/' _ _ h7]

/-- C8: For every well-formed ARN string of shape
`arn:partition:service:region:account:resourceType/resource`, parsing it
into its structural parts and re-serializing yields the original string,
and composing an Arn from parts then parsing its string form yields the
same parts (round-trip law of the ARN parser/composer). -/
theorem c8_arn_roundtrip (a : Arn) (h : a.WellFormed) :
    parseArn (composeArn a) = some a ∧
    ∀ s : List Char, (∃ b : Arn, b.WellFormed ∧ composeArn b = s) →
      (parseArn s).map composeArn = some s := by
  refine ⟨parseArn_composeArn a h, ?_⟩
  rintro s ⟨b, hb, rfl⟩
  rw [parseArn_composeArn b hb]; rfl

theorem c8_arn_roundtrip_witness :
    parseArn (composeArn arnEx) = some arnEx ∧
    (parseArn (composeArn arnEx)).map composeArn
      = some (composeArn arnEx) :=
  ⟨(c8_arn_roundtrip arnEx (by decide)).1,
    (c8_arn_roundtrip arnEx (by decide)).2 (composeArn arnEx)
      ⟨arnEx, by decide, rfl⟩⟩

/-- C1 (code_bug evidence): on an open component a batch of 45 counters
does *not* issue 3 `putMetricData` calls of sizes 20/20/5.  The
synchronous pass issues 27 calls: 26 from inside the loop (one per
counter from the 20th on, each carrying the hoisted, still-`undefined`
`params`) and one final call carrying all 45 data points, because the
`data = []` reset is deferred behind the remote callback and `var params`
is assigned only after the loop. -/
theorem c1_save_45_counters :
    (CloudWatchCounters.save cwcOpenState
        (List.replicate 45 incCounterEx) 0).length = 27 ∧
      (CloudWatchCounters.save cwcOpenState
          (List.replicate 45 incCounterEx) 0).map
            (Option.map fun p => p.MetricData.length)
        = List.replicate 26 none ++ [some 45] := by
  constructor <;> rfl

/-- C7 (counterexample): an interval counter's metric datum carries the
explicit unit `"Milliseconds"`, not the no-unit value `"None"` the claim
requires for interval counters. -/
theorem c7_counterexample :
    (CloudWatchCounters.getCounterData intervalCounterEx 0 []).Unit
        = CloudWatchUnit.Milliseconds ∧
      CloudWatchUnit.Milliseconds ≠ CloudWatchUnit.None :=
  ⟨rfl, by decide⟩

/-- C7 (amended): the data point shape per counter kind — an increment
counter carries its raw count with unit `"Count"`; interval counters
carry `SampleCount = count`, `Maximum = max`, `Minimum = min`,
`Sum = count × average` with unit `"Milliseconds"`; statistics counters
carry the same statistic values with no explicit unit (`"None"`); a
last-value counter carries the raw last value; a timestamp counter
carries the time as epoch milliseconds. -/
theorem c7_counter_data_shape (c : Counter) (now : Nat)
    (dims : List (String × String)) :
    CloudWatchCounters.getCounterData c now dims
      = CloudWatchCounters.expectedCounterData c dims := by
  cases h : c.type <;>
    simp [CloudWatchCounters.getCounterData,
      CloudWatchCounters.expectedCounterData, h]

/-- C9: `open` sets the opened flag before connection resolution begins:
after one `open()` on a closed component `isOpen()` is `true` even when
resolution fails, and a second `open()` returns immediately — callback
`null`, no resolution attempt, state unchanged. -/
theorem c9_open_sets_flag_first (st : CloudWatchCounters.State)
    (r r' : Option String) (h : st.opened = false) :
    CloudWatchCounters.isOpen (CloudWatchCounters.openStep st r).state
        = true ∧
    (CloudWatchCounters.openStep
        (CloudWatchCounters.openStep st r).state r').resolved = false ∧
    (CloudWatchCounters.openStep
        (CloudWatchCounters.openStep st r).state r').state
      = (CloudWatchCounters.openStep st r).state ∧
    (CloudWatchCounters.openStep
        (CloudWatchCounters.openStep st r).state r').callbackErr = none := by
  cases r <;>
    simp [CloudWatchCounters.openStep, CloudWatchCounters.isOpen, h]

theorem c9_open_sets_flag_first_witness :
    CloudWatchCounters.isOpen
        (CloudWatchCounters.openStep cwcClosedState
          (some "resolve failed")).state = true ∧
    (CloudWatchCounters.openStep
        (CloudWatchCounters.openStep cwcClosedState
          (some "resolve failed")).state none).resolved = false ∧
    (CloudWatchCounters.openStep
        (CloudWatchCounters.openStep cwcClosedState
          (some "resolve failed")).state none).state
      = (CloudWatchCounters.openStep cwcClosedState
          (some "resolve failed")).state ∧
    (CloudWatchCounters.openStep
        (CloudWatchCounters.openStep cwcClosedState
          (some "resolve failed")).state none).callbackErr = none :=
  c9_open_sets_flag_first cwcClosedState (some "resolve failed") none rfl

/-- C2 (code_bug evidence): on an open logger holding sequence token
`"old"`, with the remote stream advanced to token `"new"`, `save`
re-fetches the token (the describe call happens and the held token is
updated) but submits `putLogEvents` with the *stale* token `"old"`,
because the `params` object was built before the `async.series`; on
success the held token is then updated from the response. -/
theorem c2_stale_token_put :
    (CloudWatchLogger.save loggerOpenState (some [logMsgEx])
        [some "new"] (Except.ok "next")).describeCalled = true ∧
    ((CloudWatchLogger.save loggerOpenState (some [logMsgEx])
        [some "new"] (Except.ok "next")).putCall.map
          fun p => p.sequenceToken) = some (some "old") ∧
    (some "old" : Option String) ≠ some "new" ∧
    (CloudWatchLogger.save loggerOpenState (some [logMsgEx])
        [some "new"] (Except.ok "next")).state.lastToken = some "next" :=
  ⟨rfl, rfl, by decide, rfl⟩

/-- C10: whenever `save` is called on an open logger (timer and client
present) with a non-empty, non-null batch, the completion callback is
never invoked — the internal `async.series` has no final continuation —
and consequently a `close()` issued while messages are buffered never
signals completion and never clears the timer. -/
theorem c10_save_never_calls_back (st : CloudWatchLogger.State)
    (msgs : List LogMessage) (d : List (Option String))
    (p : Except String String) (hopen : st.timer = true)
    (hclient : st.client = true) (hmsgs : msgs ≠ []) :
    (CloudWatchLogger.save st (some msgs) d p).callbackCalls = [] ∧
    (st.cache ≠ [] →
      (CloudWatchLogger.close st d p).callbackCalls = [] ∧
      (CloudWatchLogger.close st d p).state.timer = true) := by
  have hs : ∀ ms : List LogMessage, ms ≠ [] →
      (CloudWatchLogger.save st (some ms) d p).callbackCalls = [] ∧
      (CloudWatchLogger.save st (some ms) d p).state.timer = true := by
    intro ms hms
    unfold CloudWatchLogger.save
    simp only [CloudWatchLogger.isOpen, hopen, hclient]
    cases d <;> cases p <;> simp [hms, hopen]
  refine ⟨(hs msgs hmsgs).1, fun hc => ?_⟩
  have h1 := (hs st.cache hc).1
  have h2 := (hs st.cache hc).2
  unfold CloudWatchLogger.close
  simp only [h1]
  exact ⟨trivial, h2⟩

theorem c10_save_never_calls_back_witness :
    (CloudWatchLogger.save loggerOpenState (some [logMsgEx])
        [some "new"] (Except.ok "next")).callbackCalls = [] ∧
    (CloudWatchLogger.close loggerOpenState
        [some "new"] (Except.ok "next")).callbackCalls = [] ∧
    (CloudWatchLogger.close loggerOpenState
        [some "new"] (Except.ok "next")).state.timer = true :=
  let h := c10_save_never_calls_back loggerOpenState [logMsgEx]
    [some "new"] (Except.ok "next") rfl rfl (by decide)
  ⟨h.1, (h.2 (by decide)).1, (h.2 (by decide)).2⟩

/-- C5: `execute` reports `BadRequestException NO_COMMAND` when the event
carries no command field (and no handler runs); reports
`BadRequestException NO_ACTION` with the unmatched command name as the
`command` detail when no handler is registered; and otherwise invokes the
matched handler with the event, forwarding its outcome unchanged. -/
theorem c5_execute_dispatch {ρ : Type}
    (actions : String → Option (Event → Option AppError × Option ρ))
    (event : Event) :
    (event.cmd = none →
      LambdaFunction.execute actions event =
        ⟨(some ⟨"BadRequestException", event.correlation_id, "NO_COMMAND",
            "Cmd parameter is missing", []⟩, none), none⟩) ∧
    (∀ cmd, event.cmd = some cmd → actions cmd = none →
      LambdaFunction.execute actions event =
        ⟨(some ⟨"BadRequestException", event.correlation_id, "NO_ACTION",
            "Action " ++ cmd ++ " was not found",
            [("command", cmd)]⟩, none), none⟩) ∧
    (∀ cmd action, event.cmd = some cmd → actions cmd = some action →
      LambdaFunction.execute actions event = ⟨action event, some cmd⟩) := by
  refine ⟨fun h => ?_, fun cmd h ha => ?_, fun cmd action h ha => ?_⟩
  · simp [LambdaFunction.execute, h]
  · simp [LambdaFunction.execute, h, ha]
  · simp [LambdaFunction.execute, h, ha]

theorem c5_execute_dispatch_witness :
    LambdaFunction.execute actionsEx eventNoCmd =
      ⟨(some ⟨"BadRequestException", some "42", "NO_COMMAND",
          "Cmd parameter is missing", []⟩, none), none⟩ ∧
    LambdaFunction.execute actionsEx eventUnknown =
      ⟨(some ⟨"BadRequestException", some "42", "NO_ACTION",
          "Action " ++ "zzz" ++ " was not found",
          [("command", "zzz")]⟩, none), none⟩ ∧
    LambdaFunction.execute actionsEx eventPing =
      ⟨pingAction eventPing, some "ping"⟩ :=
  ⟨(c5_execute_dispatch actionsEx eventNoCmd).1 rfl,
    (c5_execute_dispatch actionsEx eventUnknown).2.1 "zzz" rfl rfl,
    (c5_execute_dispatch actionsEx eventPing).2.2 "ping" pingAction rfl rfl⟩

/-- C3 (counterexample): with the *empty-string* command the guard
`cmd == null` does not fire, so a remote Lambda invocation *is* issued
(and its result is delivered normally, with no error), contradicting the
claim that a null-or-empty command never reaches the remote service. -/
theorem c3_counterexample :
    (LambdaClient.invoke "myarn" "RequestResponse" (some "") none "gen1"
        [] true (.success (.nonString .vnull))).remoteCall
      = some ⟨"myarn", "RequestResponse", "None",
          [("cmd", .vstr ""), ("correlation_id", .vstr "gen1")]⟩ ∧
    (LambdaClient.invoke "myarn" "RequestResponse" (some "") none "gen1"
        [] true (.success (.nonString .vnull))).callbackCalls
      = [(none, some .vnull)] :=
  ⟨rfl, rfl⟩

/-- C3 (amended): for a `null`/`undefined` command no remote invocation is
issued and the missing-command error (`UnknownException` with code
`NO_COMMAND`, the spec taxonomy's InvalidActionError) is reported through
the callback, or handed to the logger when no callback is supplied; an
empty-string command is not intercepted. -/
theorem c3_null_command (arn ity : String) (cid : Option String)
    (gen : String) (args : JsObj) (hasCb : Bool) (remote : RemoteResult) :
    (LambdaClient.invoke arn ity none cid gen args hasCb remote).remoteCall
        = none ∧
    (hasCb = true →
      (LambdaClient.invoke arn ity none cid gen args hasCb
          remote).callbackCalls
        = [(some (.app "UnknownException" "NO_COMMAND" none), none)] ∧
      (LambdaClient.invoke arn ity none cid gen args hasCb
          remote).loggedErrors = []) ∧
    (hasCb = false →
      (LambdaClient.invoke arn ity none cid gen args hasCb
          remote).callbackCalls = [] ∧
      (LambdaClient.invoke arn ity none cid gen args hasCb
          remote).loggedErrors
        = [.app "UnknownException" "NO_COMMAND" none]) := by
  cases hasCb <;> simp [LambdaClient.invoke]

theorem c3_null_command_witness :
    (LambdaClient.invoke "myarn" "RequestResponse" none (some "123")
        "gen1" [] true (.success (.nonString .vnull))).remoteCall = none ∧
    (LambdaClient.invoke "myarn" "RequestResponse" none (some "123")
        "gen1" [] true (.success (.nonString .vnull))).callbackCalls
      = [(some (.app "UnknownException" "NO_COMMAND" none), none)] ∧
    (LambdaClient.invoke "myarn" "RequestResponse" none (some "123")
        "gen1" [] true (.success (.nonString .vnull))).loggedErrors = [] :=
  let h := c3_null_command "myarn" "RequestResponse" (some "123") "gen1"
    [] true (.success (.nonString .vnull))
  ⟨h.1, (h.2.1 rfl).1, (h.2.1 rfl).2⟩

/-- C4 (code_bug evidence): when the remote call succeeds with a string
payload that fails `JSON.parse`, the caller's callback is invoked *twice*:
first with the `DESERIALIZATION_FAILED` error, then — because the `catch`
block does not return — with the raw undecoded payload as the result. -/
theorem c4_deserialization_double_callback :
    (LambdaClient.invoke "myarn" "RequestResponse" (some "ping")
        (some "123") "gen1" [] true
        (.success (.strPayload "not json"
          (.error "Unexpected token")))).callbackCalls
      = [(some (.app "InvocationException" "DESERIALIZATION_FAILED"
            (some (.raw "Unexpected token"))), none),
          (none, some (.vstr "not json"))] :=
  rfl

/-- C6 (counterexample): with a supplied — but empty — correlation id, the
payload carries a freshly generated id rather than the supplied one
(`correlationId || IdGenerator.nextShort()` treats the empty string as
absent), contradicting the claim that the supplied correlationId is used
whenever one is supplied. -/
theorem c6_counterexample :
    ((LambdaClient.invoke "myarn" "RequestResponse" (some "ping")
        (some "") "gen9" [] true
        (.success (.nonString .vnull))).remoteCall.map fun p => p.Payload)
      = some [("cmd", .vstr "ping"), ("correlation_id", .vstr "gen9")] ∧
    ("gen9" : String) ≠ "" :=
  ⟨rfl, by decide⟩

/-- C6 (amended): for every call with a non-null command, the serialized
payload equals a clone of the supplied args extended with the command
under key `cmd` and, under `correlation_id`, the supplied correlation id
when it is non-empty or a freshly generated one when it is absent or
empty; the caller's original args object is not mutated; and the request
carries the resolved ARN, the invocation type and `LogType = "None"`. -/
theorem c6_payload_clone (arn ity c : String) (cid : Option String)
    (gen : String) (args : JsObj) (hasCb : Bool) (remote : RemoteResult) :
    ((LambdaClient.invoke arn ity (some c) cid gen args hasCb
        remote).remoteCall.map fun p => p.Payload)
      = some (specInvokePayload cid gen args c) ∧
    (LambdaClient.invoke arn ity (some c) cid gen args hasCb
        remote).callerArgs = args ∧
    ((LambdaClient.invoke arn ity (some c) cid gen args hasCb
        remote).remoteCall.map
          fun p => (p.FunctionName, p.InvocationType, p.LogType))
      = some (arn, ity, "None") := by
  cases hasCb <;>
    rcases remote with e | v | ⟨s, pe | v⟩ <;>
      simp [LambdaClient.invoke, specInvokePayload]

end PipAws
